import Mathlib

/-!
Verification development for the iotedged daemon orchestration kernel.

Shallow embedding of:
- src/edgelet/edgelet-http/src/version.rs (the `Version` enum, `FromStr`, `Display`)
- src/edgelet/edgelet-http/src/route/mod.rs (`Builder` convenience methods,
  `RouterService::call`)
- src/edgelet/iotedged/src/lib.rs (`build_env`, `check_settings_state`,
  `reconfigure`, `start_api` shutdown wiring)
-/

namespace IotEdged

/-! ### API version (src/edgelet/edgelet-http/src/version.rs) -/

/-- The `Version` enum of version.rs: the closed set of supported API versions. -/
inductive Version
  | Version2018_06_28
  | Version2018_12_30
  deriving DecidableEq, Repr

/-- `impl FromStr for Version` (version.rs lines 14-24): only the two dashed
date strings parse; anything else is an error (modelled as `none`). -/
def Version.fromStr (s : String) : Option Version :=
  if s = "2018-06-28" then some .Version2018_06_28
  else if s = "2018-12-30" then some .Version2018_12_30
  else none

/-- `impl fmt::Display for Version` (version.rs lines 26-34). -/
def Version.render : Version → String
  | .Version2018_06_28 => "2018-06-28"
  | .Version2018_12_30 => "2018-12-30"

/-- `pub const API_VERSION: Version = Version::Version2018_12_30` (version.rs line 6). -/
def API_VERSION : Version := .Version2018_12_30

/-! ### Router (src/edgelet/edgelet-http/src/route/mod.rs) -/

/-- HTTP methods used by the router and builder. -/
inductive Method
  | GET
  | POST
  | PUT
  | DELETE
  | OTHER (s : String)
  deriving DecidableEq, Repr

/-- Error kinds of the edgelet-http error module that the router constructs. -/
inductive ErrorKind
  | invalidApiVersion (s : String)
  deriving DecidableEq, Repr

/-- An HTTP response body, as far as the router distinguishes bodies:
`Body::empty()` or the serialized error wire-form of an `ErrorKind`. -/
inductive RespBody
  | empty
  | errorBody (k : ErrorKind)
  deriving DecidableEq, Repr

/-- An HTTP response: a status code plus a body. -/
structure Resp where
  status : Nat
  body : RespBody
  deriving DecidableEq, Repr

/-- `err.compat()`: the failure-crate wrapper in which a handler error crosses
the hyper `Service` boundary (`type Error = Compat<Error>`). -/
structure Compat (E : Type) where
  err : E
  deriving DecidableEq, Repr

/-- An incoming request, as far as `RouterService::call` inspects it: the
method, the URI path, and the query string. `req.uri().query()` is `None`
when the URI has no query; otherwise `parse_query` yields the ordered list
of key-value pairs (URL-decoding is abstracted away). -/
structure Request where
  method : Method
  path : String
  query : Option (List (String × String))

/-- A route handler: `Handler<P>` returns a future resolving to a response or
to an edgelet error (here the error type is the parameter `E`). -/
def Handler (P E : Type) := Request → P → Except E Resp

/-- Modelled from the spec: the `IntoResponse` impl for edgelet-http errors
lives in the error module, which is not among the given sources. Per sections
6 and 7 of the spec, `InvalidApiVersion` maps to `400 Bad Request` with an
`InvalidApiVersion` body. -/
def intoResponse : ErrorKind → Resp
  | .invalidApiVersion s => ⟨400, .errorBody (.invalidApiVersion s)⟩

/-- The api-version extraction of `RouterService::call` (route/mod.rs lines
159-174): take the query if present, find the first pair whose key is
`api-version`, and parse its value; any failure collapses to `none`. -/
def extractApiVersion (query : Option (List (String × String))) : Option Version :=
  query.bind fun q =>
    (q.find? fun kv => kv.1 = "api-version").bind fun kv => Version.fromStr kv.2

/-- The observable outcome of one `RouterService::call`: the future's result
(a response, or a handler error wrapped by `compat`), whether the recognizer
was consulted, and whether a handler was invoked. -/
structure CallOutcome (E : Type) where
  result : Except (Compat E) Resp
  recognizerConsulted : Bool
  handlerInvoked : Bool

/-- `RouterService::call` (route/mod.rs lines 157-195). The recognizer is the
function `recognize : (method, version, path) → (handler, params) | status`.
On a missing or unparseable api-version the router replies with the
`InvalidApiVersion` error response without touching the recognizer; on a
recognizer status it replies with that status and an empty body; on a match
it invokes the handler and maps its error through `compat`. -/
def routerCall {P E : Type}
    (recognize : Method → Version → String → Except Nat (Handler P E × P))
    (req : Request) : CallOutcome E :=
  match extractApiVersion req.query with
  | some v =>
    match recognize req.method v req.path with
    | .ok (h, params) => ⟨(h req params).mapError Compat.mk, true, true⟩
    | .error code => ⟨.ok ⟨code, .empty⟩, true, false⟩
  | none => ⟨.ok (intoResponse (.invalidApiVersion "")), false, false⟩

/-- Result of a builder convenience method: either the updated builder or a
runtime panic (the `unwrap` on `version.parse::<Version>()`). -/
inductive BuildResult (A : Type)
  | built (b : A)
  | panicked (msg : String)
  deriving DecidableEq, Repr

/-- `Builder::get` (route/mod.rs lines 70-76): parse the version string and
`unwrap` the result, then delegate to `route`. `route` is abstracted as the
function argument since its implementation lives in the regex module. -/
def Builder.get {A H : Type} (route : Method → Version → String → H → A)
    (version : String) (pattern : String) (handler : H) : BuildResult A :=
  match Version.fromStr version with
  | some v => .built (route Method.GET v pattern handler)
  | none => .panicked "called unwrap on an Err value"

/-- `Builder::post` (route/mod.rs lines 78-84). -/
def Builder.post {A H : Type} (route : Method → Version → String → H → A)
    (version : String) (pattern : String) (handler : H) : BuildResult A :=
  match Version.fromStr version with
  | some v => .built (route Method.POST v pattern handler)
  | none => .panicked "called unwrap on an Err value"

/-- `Builder::put` (route/mod.rs lines 86-92). -/
def Builder.put {A H : Type} (route : Method → Version → String → H → A)
    (version : String) (pattern : String) (handler : H) : BuildResult A :=
  match Version.fromStr version with
  | some v => .built (route Method.PUT v pattern handler)
  | none => .panicked "called unwrap on an Err value"

/-- `Builder::delete` (route/mod.rs lines 94-100). -/
def Builder.delete {A H : Type} (route : Method → Version → String → H → A)
    (version : String) (pattern : String) (handler : H) : BuildResult A :=
  match Version.fromStr version with
  | some v => .built (route Method.DELETE v pattern handler)
  | none => .panicked "called unwrap on an Err value"

/-! ### Env builder (src/edgelet/iotedged/src/lib.rs, build_env) -/

/-- The constant environment keys injected by iotedged (lib.rs lines 90-144). -/
def EDGE_RUNTIME_MODULEID : String := "$edgeAgent"

def AUTH_SCHEME : String := "sasToken"

def HOSTNAME_KEY : String := "IOTEDGE_IOTHUBHOSTNAME"

def GATEWAY_HOSTNAME_KEY : String := "EDGEDEVICEHOSTNAME"

def DEVICEID_KEY : String := "IOTEDGE_DEVICEID"

def MODULEID_KEY : String := "IOTEDGE_MODULEID"

def WORKLOAD_URI_KEY : String := "IOTEDGE_WORKLOADURI"

def MANAGEMENT_URI_KEY : String := "IOTEDGE_MANAGEMENTURI"

def AUTHSCHEME_KEY : String := "IOTEDGE_AUTHSCHEME"

def EDGE_RUNTIME_MODE_KEY : String := "Mode"

def EDGE_RUNTIME_MODE : String := "iotedged"

def EDGE_NETWORKID_KEY : String := "NetworkId"

def API_VERSION_KEY : String := "IOTEDGE_APIVERSION"

/-- A `HashMap<String, String>` viewed through lookup: total map to optional
values. -/
def Env : Type := String → Option String

/-- `HashMap::insert`: later inserts override earlier ones at the same key. -/
def envInsert (e : Env) (k v : String) : Env :=
  fun x => if x = k then some v else e x

/-- The fields of `Settings` that `build_env` reads: the configured hostname
and the connect URIs (rendered as strings). -/
structure Settings where
  hostname : String
  workload_uri : String
  management_uri : String
  deriving DecidableEq, Repr

/-- `build_env` (lib.rs lines 500-534), translated statement by statement:
a fresh map receives the nine injected keys, then every entry of the
user-supplied `spec_env` is inserted (overriding on collision), and finally
`IOTEDGE_APIVERSION` is inserted unconditionally. -/
def build_env (spec_env : List (String × String)) (hostname : String)
    (device_id : String) (settings : Settings) (network_id : String) : Env :=
  let env : Env := fun _ => none
  let env := envInsert env HOSTNAME_KEY hostname
  let env := envInsert env GATEWAY_HOSTNAME_KEY settings.hostname.toLower
  let env := envInsert env DEVICEID_KEY device_id
  let env := envInsert env MODULEID_KEY EDGE_RUNTIME_MODULEID
  let env := envInsert env WORKLOAD_URI_KEY settings.workload_uri
  let env := envInsert env MANAGEMENT_URI_KEY settings.management_uri
  let env := envInsert env AUTHSCHEME_KEY AUTH_SCHEME
  let env := envInsert env EDGE_RUNTIME_MODE_KEY EDGE_RUNTIME_MODE
  let env := envInsert env EDGE_NETWORKID_KEY network_id
  let env := spec_env.foldl (fun e kv => envInsert e kv.1 kv.2) env
  envInsert env API_VERSION_KEY API_VERSION.render

/-- The injected keys of the section 4.5 table other than
`IOTEDGE_APIVERSION`. -/
def injectedKeys : List String :=
  [HOSTNAME_KEY, GATEWAY_HOSTNAME_KEY, DEVICEID_KEY, MODULEID_KEY,
   WORKLOAD_URI_KEY, MANAGEMENT_URI_KEY, AUTHSCHEME_KEY,
   EDGE_RUNTIME_MODE_KEY, EDGE_NETWORKID_KEY]

/-- The value an iteration of inserts leaves at key `k`: the value of the
last pair of `l` whose key is `k`, if any. For a `HashMap` (distinct keys)
this is the map's value at `k`. -/
def lookupLast (l : List (String × String)) (k : String) : Option String :=
  l.foldl (fun acc kv => if kv.1 = k then some kv.2 else acc) none

/-! ### Settings cache guard (src/edgelet/iotedged/src/lib.rs) -/

/-- Observable persistent state of the cache guard: the content of
`cache/settings_state` (`none` when the file or the cache directory is
absent). -/
structure GuardState where
  stateFile : Option String
  deriving DecidableEq, Repr

/-- Observable side effects of one guard run, in order of occurrence. -/
inductive GuardEvent
  | removeAllCalled
  | removeDirCalled
  | createDirCalled
  | createKeyCalled
  | fileWrite (content : String)
  deriving DecidableEq, Repr

/-- I/O error kinds that `fs::remove_dir_all` can report. -/
inductive IoErrorKind
  | notFound
  | permissionDenied
  | other (s : String)
  deriving DecidableEq, Repr

/-- Error kinds that `crypto.create_key()` can report. -/
inductive CryptoErrorKind
  | keyAlreadyExists
  | other (s : String)
  deriving DecidableEq, Repr

/-- Fatal errors the guard can raise. -/
inductive GuardError
  | runtimeErr (s : String)
  | cacheErr (s : String)
  | serdeErr (s : String)
  deriving DecidableEq, Repr

/-- Oracle fixing the outcome of each external effect of one `reconfigure`
run (`none` means the effect succeeds). -/
structure IoOracle where
  removeAllErr : Option String
  removeDirErr : Option IoErrorKind
  createDirErr : Option String
  createKeyErr : Option CryptoErrorKind
  createFileErr : Option String
  serializeErr : Option String
  writeErr : Option String
  deriving DecidableEq, Repr

/-- The oracle on which every effect succeeds. -/
def IoOracle.allOk : IoOracle := ⟨none, none, none, none, none, none, none⟩

/-- The fingerprint pipeline of `reconfigure` (lib.rs lines 300-304):
`base64::encode(Sha256::digest_str(serde_json::to_string(settings)))`.
Serialization, hashing and encoding are external crates, abstracted as the
function parameters `toJson`, `sha` and `b64`. -/
def fingerprint (toJson : Settings → String) (sha b64 : String → String)
    (settings : Settings) : String :=
  b64 (sha (toJson settings))

/-- Modelled from the spec: `Settings::diff_with_cached` lives in the iotedged
settings module, which is not among the given sources. Per section 4.3 of the
spec, drift is declared exactly when the state file is missing or its content
is unequal to the fingerprint of the settings. -/
def diff_with_cached (toJson : Settings → String) (sha b64 : String → String)
    (st : GuardState) (settings : Settings) : Bool :=
  match st.stateFile with
  | none => true
  | some c => if c = fingerprint toJson sha b64 settings then false else true

/-- `reconfigure` (lib.rs lines 274-305), statement by statement:
`remove_all` is awaited and its error propagated; the result of
`fs::remove_dir_all` is bound to `_u`, hence ignored whatever it is;
`DirBuilder::create` propagates; the result of `crypto.create_key()` is bound
to `_u`, hence ignored whatever it is; `File::create` propagates; the
serialized settings are hashed, base64-encoded and written, each failure
propagating. On success the state file holds the fingerprint. -/
def reconfigure (toJson : Settings → String) (sha b64 : String → String)
    (o : IoOracle) (settings : Settings) :
    Except GuardError (GuardState × List GuardEvent) :=
  match o.removeAllErr with
  | some e => .error (.runtimeErr e)
  | none =>
    match o.createDirErr with
    | some e => .error (.cacheErr e)
    | none =>
      match o.createFileErr with
      | some e => .error (.cacheErr e)
      | none =>
        match o.serializeErr with
        | some e => .error (.serdeErr e)
        | none =>
          match o.writeErr with
          | some e => .error (.cacheErr e)
          | none =>
            let fp := fingerprint toJson sha b64 settings
            .ok (⟨some fp⟩,
              [.removeAllCalled, .removeDirCalled, .createDirCalled,
               .createKeyCalled, .fileWrite fp])

/-- `check_settings_state` (lib.rs lines 253-272): compute the diff against
the cached fingerprint and reconfigure exactly when it reports drift. -/
def check_settings_state (toJson : Settings → String) (sha b64 : String → String)
    (o : IoOracle) (st : GuardState) (settings : Settings) :
    Except GuardError (GuardState × List GuardEvent) :=
  if diff_with_cached toJson sha b64 st settings then
    reconfigure toJson sha b64 o settings
  else
    .ok (st, [])

/-! ### Shutdown wiring of start_api (src/edgelet/iotedged/src/lib.rs lines 337-367) -/

/-- Completion state of the three joined arms of `start_api` plus the external
signal. The oneshot channels are implicit: `runt_tx` fires with the signal
(the spawned `shutdown` future), and `mgmt_tx`, `work_tx` fire when the
runtime arm completes (the `and_then` cleanup of `edge_rt_with_cleanup`). -/
structure ApiState where
  signalFired : Bool
  runtimeDone : Bool
  mgmtDone : Bool
  workDone : Bool
  joinResolved : Bool
  deriving DecidableEq, Repr

/-- The initial state: nothing fired, nothing complete. -/
def ApiState.init : ApiState := ⟨false, false, false, false, false⟩

/-- One scheduler step of the joined futures, following the wiring of
`start_api`. Modelled from the spec where the awaited futures are external:
the watchdog future (`Watchdog::run_until`) completes only after its shutdown
receiver fires, and each `Http::run_until` launcher completes only after its
own receiver fires. `join3` resolves once all three arms are complete. -/
inductive ApiStep : ApiState → ApiState → Prop
  | fireSignal (s : ApiState) (h : s.signalFired = false) :
      ApiStep s { s with signalFired := true }
  | runtimeComplete (s : ApiState) (hsig : s.signalFired = true)
      (h : s.runtimeDone = false) :
      ApiStep s { s with runtimeDone := true }
  | mgmtComplete (s : ApiState) (hrt : s.runtimeDone = true)
      (h : s.mgmtDone = false) :
      ApiStep s { s with mgmtDone := true }
  | workComplete (s : ApiState) (hrt : s.runtimeDone = true)
      (h : s.workDone = false) :
      ApiStep s { s with workDone := true }
  | joinResolve (s : ApiState) (h1 : s.runtimeDone = true)
      (h2 : s.mgmtDone = true) (h3 : s.workDone = true)
      (h : s.joinResolved = false) :
      ApiStep s { s with joinResolved := true }

/-- States reachable from the initial state by scheduler steps. -/
def ApiReachable (s : ApiState) : Prop :=
  Relation.ReflTransGen ApiStep ApiState.init s

/-- The shutdown fan-out ordering: the runtime arm completes only after the
signal, each launcher only after the runtime arm, and the join only after
all three arms. -/
def shutdownOrder (s : ApiState) : Prop :=
  (s.runtimeDone = true → s.signalFired = true) ∧
  (s.mgmtDone = true → s.runtimeDone = true) ∧
  (s.workDone = true → s.runtimeDone = true) ∧
  (s.joinResolved = true →
    s.runtimeDone = true ∧ s.mgmtDone = true ∧ s.workDone = true)

/-! ## Theorems -/

/-- C3: for every value of the `Version` enum, parsing its rendering yields
the value back, and every string that is not the rendering of some enum value
fails to parse. -/
theorem version_parse_render_round_trip :
    (∀ v : Version, Version.fromStr (Version.render v) = some v) ∧
    (∀ s : String, (∀ v : Version, s ≠ Version.render v) →
      Version.fromStr s = none) := by
  constructor
  · intro v
    cases v <;> rfl
  · intro s h
    have h1 : s ≠ "2018-06-28" := by
      simpa [Version.render] using h .Version2018_06_28
    have h2 : s ≠ "2018-12-30" := by
      simpa [Version.render] using h .Version2018_12_30
    simp [Version.fromStr, h1, h2]

/-- Witness for C3: the non-enum string `not-a-version` fails to parse. -/
theorem version_parse_render_round_trip_witness :
    Version.fromStr "not-a-version" = none :=
  version_parse_render_round_trip.2 "not-a-version"
    (by intro v; cases v <;> decide)

/-- C2: when the query string lacks an `api-version` parameter, or the value
of its first `api-version` occurrence does not parse to a listed version, the
router replies 400 Bad Request with the `InvalidApiVersion` error body,
invokes no handler and does not consult the recognizer. -/
theorem router_rejects_missing_or_invalid_api_version {P E : Type}
    (recognize : Method → Version → String → Except Nat (Handler P E × P))
    (req : Request)
    (h : req.query = none ∨
      ∃ q, req.query = some q ∧
        ((q.find? fun kv => kv.1 = "api-version") = none ∨
         ∃ kv, (q.find? fun kv => kv.1 = "api-version") = some kv ∧
           Version.fromStr kv.2 = none)) :
    routerCall recognize req =
      ⟨.ok ⟨400, .errorBody (.invalidApiVersion "")⟩, false, false⟩ := by
  have hnone : extractApiVersion req.query = none := by
    rcases h with h | ⟨q, hq, h⟩
    · simp [extractApiVersion, h]
    · rcases h with h | ⟨kv, hkv, hparse⟩
      · simp [extractApiVersion, hq, h]
      · simp [extractApiVersion, hq, hkv, hparse]
  simp only [routerCall, hnone]
  rfl

/-- Witness for C2: a request whose first `api-version` value is `bogus` is
rejected with 400 without touching recognizer or handler. -/
theorem router_rejects_missing_or_invalid_api_version_witness :
    @routerCall Unit String (fun _ _ _ => .error 404)
      ⟨.GET, "/modules", some [("api-version", "bogus")]⟩ =
      ⟨.ok ⟨400, .errorBody (.invalidApiVersion "")⟩, false, false⟩ :=
  router_rejects_missing_or_invalid_api_version _ _
    (Or.inr ⟨[("api-version", "bogus")], rfl,
      Or.inr ⟨("api-version", "bogus"), rfl, rfl⟩⟩)

/-- C10: when the api-version is recognized and the recognizer returns a
status code instead of a handler, the router's response carries exactly that
status code with an empty body, and no handler is invoked. -/
theorem router_route_miss_passes_status_through {P E : Type}
    (recognize : Method → Version → String → Except Nat (Handler P E × P))
    (req : Request) (v : Version) (code : Nat)
    (hv : extractApiVersion req.query = some v)
    (hr : recognize req.method v req.path = .error code) :
    routerCall recognize req = ⟨.ok ⟨code, .empty⟩, true, false⟩ := by
  simp only [routerCall, hv, hr]

/-- Witness for C10: a recognizer miss with 404 yields a 404 empty-body
response. -/
theorem router_route_miss_passes_status_through_witness :
    @routerCall Unit String (fun _ _ _ => .error 404)
      ⟨.GET, "/other", some [("api-version", "2018-12-30")]⟩ =
      ⟨.ok ⟨404, .empty⟩, true, false⟩ :=
  router_route_miss_passes_status_through _ _ .Version2018_12_30 404 rfl rfl

/-- A recognizer whose single handler always fails, used to exercise the
handler-error path of `routerCall`. -/
def handlerErrRecognizer :
    Method → Version → String → Except Nat (Handler Unit String × Unit) :=
  fun _ _ _ => .ok (fun _ _ => .error "boom", ())

/-- A request carrying a recognized api-version, used to exercise the
handler-error path of `routerCall`. -/
def handlerErrRequest : Request :=
  ⟨.GET, "/modules/m", some [("api-version", "2018-12-30")]⟩

/-- C5 counterexample: when the handler resolves to an error, the router does
not convert it to a 500 status response; the call's result is the
compat-wrapped error, not a response at all. -/
theorem router_handler_error_is_not_converted :
    (routerCall handlerErrRecognizer handlerErrRequest).result =
      .error ⟨"boom"⟩ ∧
    ∀ resp : Resp,
      (routerCall handlerErrRecognizer handlerErrRequest).result ≠
        .ok resp := by
  constructor
  · rfl
  · intro resp hre
    exact Except.noConfusion hre

/-- C5 amended: when the handler's computation resolves to an error, the
router propagates it across the service boundary as a compat-wrapped
service-level error rather than converting it to a status response. -/
theorem router_handler_error_propagates {P E : Type}
    (recognize : Method → Version → String → Except Nat (Handler P E × P))
    (req : Request) (v : Version) (hd : Handler P E) (p : P) (e : E)
    (hv : extractApiVersion req.query = some v)
    (hr : recognize req.method v req.path = .ok (hd, p))
    (he : hd req p = .error e) :
    routerCall recognize req = ⟨.error ⟨e⟩, true, true⟩ := by
  simp only [routerCall, hv, hr, he]
  rfl

/-- Witness for the amended C5: the failing handler's error crosses the
boundary as a compat-wrapped error. -/
theorem router_handler_error_propagates_witness :
    routerCall handlerErrRecognizer handlerErrRequest =
      ⟨.error ⟨"boom"⟩, true, true⟩ :=
  router_handler_error_propagates handlerErrRecognizer handlerErrRequest
    .Version2018_12_30 (fun _ _ => .error "boom") () "boom" rfl rfl rfl

/-- C4: registering a route through the builder convenience methods with a
version string that is not a listed `Version` is a runtime panic in the code
(the unchecked `unwrap` on `version.parse()`), not the build-time error the
specification requires. Each convenience method panics on the unknown
version string `2017-01-01`. -/
theorem builder_unknown_version_panics :
    Builder.get (fun m v p (_ : Unit) => (m, v, p)) "2017-01-01" "/modules" () =
      .panicked "called unwrap on an Err value" ∧
    Builder.post (fun m v p (_ : Unit) => (m, v, p)) "2017-01-01" "/modules" () =
      .panicked "called unwrap on an Err value" ∧
    Builder.put (fun m v p (_ : Unit) => (m, v, p)) "2017-01-01" "/modules" () =
      .panicked "called unwrap on an Err value" ∧
    Builder.delete (fun m v p (_ : Unit) => (m, v, p)) "2017-01-01" "/modules" () =
      .panicked "called unwrap on an Err value" :=
  ⟨rfl, rfl, rfl, rfl⟩

/-! ### Lemmas about environment insertion -/

lemma envInsert_same (e : Env) (k v : String) : envInsert e k v k = some v := by
  simp [envInsert]

lemma envInsert_other (e : Env) (k v x : String) (h : x ≠ k) :
    envInsert e k v x = e x := by
  simp [envInsert, h]

lemma foldl_envInsert_apply (l : List (String × String)) (e : Env) (k : String) :
    (l.foldl (fun acc kv => envInsert acc kv.1 kv.2) e) k =
      l.foldl (fun acc kv => if kv.1 = k then some kv.2 else acc) (e k) := by
  induction l generalizing e with
  | nil => rfl
  | cons kv t ih =>
    simp only [List.foldl_cons]
    rw [ih]
    congr 1
    by_cases hk : k = kv.1
    · subst hk
      simp [envInsert]
    · rw [envInsert_other _ _ _ _ hk, if_neg (fun hh => hk hh.symm)]

lemma foldl_lookup_const (k : String) (l : List (String × String))
    (o : Option String) (h : ∀ kv ∈ l, kv.1 ≠ k) :
    l.foldl (fun acc kv => if kv.1 = k then some kv.2 else acc) o = o := by
  induction l generalizing o with
  | nil => rfl
  | cons kv t ih =>
    simp only [List.foldl_cons]
    rw [if_neg (h kv (List.mem_cons_self _ _))]
    exact ih o fun kv2 hm => h kv2 (List.mem_cons_of_mem _ hm)

lemma foldl_lookup_indep (k : String) (l : List (String × String)) :
    (∃ kv ∈ l, kv.1 = k) → ∀ o o2 : Option String,
      l.foldl (fun acc kv => if kv.1 = k then some kv.2 else acc) o =
      l.foldl (fun acc kv => if kv.1 = k then some kv.2 else acc) o2 := by
  induction l with
  | nil =>
    rintro ⟨kv, hmem, _⟩
    exact absurd hmem (List.not_mem_nil kv)
  | cons kv t ih =>
    rintro ⟨kv2, hmem, hk2⟩ o o2
    simp only [List.foldl_cons]
    by_cases hk : kv.1 = k
    · rw [if_pos hk, if_pos hk]
    · rw [if_neg hk, if_neg hk]
      rcases List.mem_cons.mp hmem with heq | hmem2
      · subst heq
        exact absurd hk2 hk
      · exact ih ⟨kv2, hmem2, hk2⟩ o o2

lemma foldl_lookup_last (k x : String) (l : List (String × String))
    (o : Option String) (h : lookupLast l k = some x) :
    l.foldl (fun acc kv => if kv.1 = k then some kv.2 else acc) o = some x := by
  by_cases hm : ∃ kv ∈ l, kv.1 = k
  · rw [foldl_lookup_indep k l hm o none]
    exact h
  · push_neg at hm
    simp only [lookupLast] at h
    rw [foldl_lookup_const k l none hm] at h
    exact Option.noConfusion h

/-- C1 counterexample: the claim says the injected value wins over the
user-supplied entry for `IOTEDGE_IOTHUBHOSTNAME`, but the user's entry
survives: the returned value is the user's `attacker`, not the injected
`hub.example`. -/
theorem build_env_injected_key_overridden_by_user :
    build_env [("IOTEDGE_IOTHUBHOSTNAME", "attacker")] "hub.example" "dev"
        ⟨"HostName", "unix-w", "unix-m"⟩ "net" "IOTEDGE_IOTHUBHOSTNAME" =
      some "attacker" ∧
    ("attacker" : String) ≠ "hub.example" := by
  constructor
  · rfl
  · decide

/-- C1 amended: user-supplied entries are inserted after the injected keys,
so for every injected key of the section 4.5 table other than
`IOTEDGE_APIVERSION` a colliding user entry wins; `IOTEDGE_APIVERSION` is
inserted last and always carries the rendering of the current version. -/
theorem build_env_user_entry_wins_except_api_version
    (se : List (String × String)) (hostname device_id network_id : String)
    (settings : Settings) (K x : String)
    (hK : K ∈ injectedKeys) (hx : lookupLast se K = some x) :
    build_env se hostname device_id settings network_id K = some x ∧
    build_env se hostname device_id settings network_id API_VERSION_KEY =
      some API_VERSION.render := by
  have hKne : K ≠ API_VERSION_KEY := by
    fin_cases hK <;> decide
  constructor
  · simp only [build_env]
    rw [envInsert_other _ _ _ _ hKne, foldl_envInsert_apply]
    exact foldl_lookup_last K x se _ hx
  · simp only [build_env]
    exact envInsert_same _ _ _

/-- Witness for the amended C1: the user's entry for
`IOTEDGE_IOTHUBHOSTNAME` wins while `IOTEDGE_APIVERSION` is the daemon's. -/
theorem build_env_user_entry_wins_witness :
    build_env [("IOTEDGE_IOTHUBHOSTNAME", "attacker")] "hub.example" "dev"
        ⟨"HostName", "unix-w", "unix-m"⟩ "net" "IOTEDGE_IOTHUBHOSTNAME" =
      some "attacker" ∧
    build_env [("IOTEDGE_IOTHUBHOSTNAME", "attacker")] "hub.example" "dev"
        ⟨"HostName", "unix-w", "unix-m"⟩ "net" API_VERSION_KEY =
      some API_VERSION.render :=
  build_env_user_entry_wins_except_api_version _ _ _ _ _
    "IOTEDGE_IOTHUBHOSTNAME" "attacker" (by decide) rfl

/-! ### Lemmas about the cache guard -/

lemma check_ok_stateFile (toJson : Settings → String) (sha b64 : String → String)
    (o : IoOracle) (st : GuardState) (settings : Settings)
    (st1 : GuardState) (ev : List GuardEvent)
    (h : check_settings_state toJson sha b64 o st settings = .ok (st1, ev)) :
    st1.stateFile = some (fingerprint toJson sha b64 settings) := by
  unfold check_settings_state at h
  by_cases hd : diff_with_cached toJson sha b64 st settings = true
  · rw [if_pos hd] at h
    unfold reconfigure at h
    obtain ⟨ra, rd, cd, ck, cf, se, we⟩ := o
    cases ra <;> cases cd <;> cases cf <;> cases se <;> cases we <;>
      simp_all
    obtain ⟨h1, -⟩ := h
    rw [← h1]
  · rw [if_neg hd] at h
    simp only [Except.ok.injEq, Prod.mk.injEq] at h
    obtain ⟨rfl, -⟩ := h
    rcases hst : st.stateFile with - | c
    · simp only [diff_with_cached, hst] at hd
      exact absurd trivial hd
    · simp only [diff_with_cached, hst] at hd
      by_cases hc : c = fingerprint toJson sha b64 settings
      · rw [hc]
      · rw [if_neg hc] at hd
        exact absurd rfl hd

/-- C6: whenever `check_settings_state` returns successfully, the state file
exists and its content equals the fingerprint
`base64(SHA-256(canonical JSON serialization of the settings))`. -/
theorem check_settings_state_invariant (toJson : Settings → String)
    (sha b64 : String → String) (o : IoOracle) (st : GuardState)
    (settings : Settings) (st1 : GuardState) (ev : List GuardEvent)
    (h : check_settings_state toJson sha b64 o st settings = .ok (st1, ev)) :
    st1.stateFile = some (fingerprint toJson sha b64 settings) :=
  check_ok_stateFile toJson sha b64 o st settings st1 ev h

/-- Witness for C6: a first boot on an empty cache leaves the fingerprint in
the state file. -/
theorem check_settings_state_invariant_witness :
    (⟨some "jhb"⟩ : GuardState).stateFile =
      some (fingerprint (fun _ => "j") (fun s => s ++ "h") (fun s => s ++ "b")
        ⟨"H", "w", "m"⟩) :=
  check_settings_state_invariant (fun _ => "j") (fun s => s ++ "h")
    (fun s => s ++ "b") IoOracle.allOk ⟨none⟩ ⟨"H", "w", "m"⟩ ⟨some "jhb"⟩
    [.removeAllCalled, .removeDirCalled, .createDirCalled, .createKeyCalled,
     .fileWrite "jhb"] rfl

/-- C7: after a successful run of the guard, a second invocation with the
same settings succeeds with the state unchanged and an empty event list: no
file is written, `remove_all` is not called and `create_key` is not called
(every such effect would appear as a `GuardEvent`). -/
theorem check_settings_state_fixed_point (toJson : Settings → String)
    (sha b64 : String → String) (o o2 : IoOracle) (st : GuardState)
    (settings : Settings) (st1 : GuardState) (ev : List GuardEvent)
    (h : check_settings_state toJson sha b64 o st settings = .ok (st1, ev)) :
    check_settings_state toJson sha b64 o2 st1 settings = .ok (st1, []) := by
  have hfp := check_ok_stateFile toJson sha b64 o st settings st1 ev h
  unfold check_settings_state
  rw [if_neg (by simp [diff_with_cached, hfp])]

/-- Witness for C7: the second boot after the C6 witness run is a no-op. -/
theorem check_settings_state_fixed_point_witness :
    check_settings_state (fun _ => "j") (fun s => s ++ "h") (fun s => s ++ "b")
      IoOracle.allOk ⟨some "jhb"⟩ ⟨"H", "w", "m"⟩ = .ok (⟨some "jhb"⟩, []) :=
  check_settings_state_fixed_point (fun _ => "j") (fun s => s ++ "h")
    (fun s => s ++ "b") IoOracle.allOk IoOracle.allOk ⟨none⟩ ⟨"H", "w", "m"⟩
    ⟨some "jhb"⟩
    [.removeAllCalled, .removeDirCalled, .createDirCalled, .createKeyCalled,
     .fileWrite "jhb"] rfl

/-- C8: the claim requires a non-absence I/O error of the recursive cache
removal to be fatal and only the pre-existing-key error of `create_key` to be
swallowed; the code binds both results to `_u` and ignores them. Here
`remove_dir_all` fails with `PermissionDenied` and `create_key` fails with an
error that is not pre-existing-key, yet `reconfigure` completes
successfully. -/
theorem reconfigure_swallows_removal_and_key_errors :
    reconfigure (fun _ => "j") (fun s => s ++ "h") (fun s => s ++ "b")
      ⟨none, some .permissionDenied, none, some (.other "hsm failure"),
       none, none, none⟩
      ⟨"H", "w", "m"⟩ =
      .ok (⟨some "jhb"⟩,
        [.removeAllCalled, .removeDirCalled, .createDirCalled,
         .createKeyCalled, .fileWrite "jhb"]) := rfl

/-! ### Shutdown fan-out -/

/-- C9: in every reachable state of the `start_api` shutdown wiring the
fan-out order holds (the runtime arm completes only after the external
signal, each launcher arm only after the runtime arm, and the join only
after all three arms), and the fully shut-down state, with the joined future
resolved, is reachable by firing the signal. -/
theorem start_api_shutdown_fanout :
    (∀ s : ApiState, ApiReachable s → shutdownOrder s) ∧
    ApiReachable ⟨true, true, true, true, true⟩ := by
  constructor
  · intro s hs
    induction hs with
    | refl => simp [shutdownOrder, ApiState.init]
    | tail hab step ih =>
      obtain ⟨i1, i2, i3, i4⟩ := ih
      cases step with
      | fireSignal _h => exact ⟨fun _ => rfl, i2, i3, i4⟩
      | runtimeComplete hsig _h =>
        exact ⟨fun _ => hsig, fun _ => rfl, fun _ => rfl,
          fun hj => ⟨rfl, (i4 hj).2.1, (i4 hj).2.2⟩⟩
      | mgmtComplete hrt _h =>
        exact ⟨i1, fun _ => hrt, i3,
          fun hj => ⟨(i4 hj).1, rfl, (i4 hj).2.2⟩⟩
      | workComplete hrt _h =>
        exact ⟨i1, i2, fun _ => hrt,
          fun hj => ⟨(i4 hj).1, (i4 hj).2.1, rfl⟩⟩
      | joinResolve h1 h2 h3 _h =>
        exact ⟨i1, i2, i3, fun _ => ⟨h1, h2, h3⟩⟩
  · have r1 : ApiReachable ⟨true, false, false, false, false⟩ :=
      Relation.ReflTransGen.single (ApiStep.fireSignal ApiState.init rfl)
    have r2 : ApiReachable ⟨true, true, false, false, false⟩ :=
      Relation.ReflTransGen.tail r1 (ApiStep.runtimeComplete _ rfl rfl)
    have r3 : ApiReachable ⟨true, true, true, false, false⟩ :=
      Relation.ReflTransGen.tail r2 (ApiStep.mgmtComplete _ rfl rfl)
    have r4 : ApiReachable ⟨true, true, true, true, false⟩ :=
      Relation.ReflTransGen.tail r3 (ApiStep.workComplete _ rfl rfl)
    exact Relation.ReflTransGen.tail r4 (ApiStep.joinResolve _ rfl rfl rfl rfl)

/-- Witness for C9: the ordering holds at the initial state, which is
trivially reachable. -/
theorem start_api_shutdown_fanout_witness : shutdownOrder ApiState.init :=
  start_api_shutdown_fanout.1 ApiState.init Relation.ReflTransGen.refl

end IotEdged
